import Mathlib

/-!
Verification of the match-computation pipeline of the VAYO community-matching
repository. The definitions below are a shallow embedding of
`src/celery_tasks.py` (the orchestrating task, the merge step, the diversity
pass and the tier classifier) and of `src/ai_services.py` (profile
sanitization with its pattern-based PII fallback). The external collaborators
(`database.py`, `cache.py`, `models.py` are not part of the corpus) enter as
explicit behaviours: each call's outcome is a value of `Except String`, an
exception being modelled by its message string. Scores are embedded as
rationals. The pipeline returns, next to its terminal payload, the trace of
collaborator calls it attempted, so that claims about which side effects are
or are not performed become statable.
-/

/-- Modelled from the spec: the closed enumeration `MatchTier` of section 3
(`models.py` is not part of the corpus). -/
inductive MatchTier where
  | SOULMATE
  | EXPLORER
  | FALLBACK
  deriving DecidableEq, Repr

/-- A relational-store community record, spec section 3 `CommunityRecord`
(`models.py` / `database.py` are not part of the corpus; the field list is the
one the code reads at src/celery_tasks.py lines 88-94 and 125-132). -/
structure CommunityRecord where
  community_id : String
  community_name : String
  category : String
  member_count : Nat
  recent_activity : Nat
  deriving DecidableEq, Repr

/-- A vector-ranker result: community id plus similarity score
(src/celery_tasks.py lines 122-130 read exactly these two fields). -/
structure VectorMatch where
  community_id : String
  match_score : ℚ
  deriving DecidableEq, Repr

/-- One entry of the final match list. The enriched dictionaries built at
src/celery_tasks.py lines 126-133 carry exactly these fields and are validated
unchanged into `CommunityMatch` at line 154, so one structure serves both. -/
structure CommunityMatch where
  community_id : String
  community_name : String
  category : String
  match_score : ℚ
  member_count : Nat
  recent_activity : Nat
  deriving DecidableEq, Repr

/-- The terminal success artifact (spec section 3 `MatchResult`). -/
structure MatchResult where
  task_id : String
  user_id : String
  tier : MatchTier
  «matches» : List CommunityMatch
  processing_time_ms : Nat
  deriving DecidableEq, Repr

/-- A terminal payload: the success shape of `MatchResult.model_dump` or the
failure dictionary built at src/celery_tasks.py lines 136-140 and 174-178. -/
inductive Payload where
  | success (result : MatchResult)
  | failure (task_id : String) (error : String)
  deriving DecidableEq, Repr

/-- A collaborator call attempted by the pipeline, recorded in order. -/
inductive Effect where
  | sanitizeCall
  | embedCall
  | cacheVector (user_id : String)
  | filterByLocation
  | popularQuery
  | rankerQuery (top_k : Nat)
  | publishCall (user_id : String)
  deriving DecidableEq, Repr

/-- The task input dictionary (spec section 3 `UserProfile`; the keys read at
src/celery_tasks.py lines 64-81). -/
structure UserData where
  user_id : String
  bio : String
  interest_tags : List String
  city : String
  timezone : String
  deriving DecidableEq, Repr

/- ## Pattern-based PII removal (src/ai_services.py `_basic_pii_removal`) -/

/-- ASCII reading of the regex word class used by the boundary assertion
in `_basic_pii_removal` (src/ai_services.py lines 98-102). -/
def isWordChar (c : Char) : Bool :=
  c.isAlpha || c.isDigit || c = '_'

def prevIsWord : Option Char → Bool
  | none => false
  | some c => isWordChar c

/-- Word boundary between the character preceding a candidate match and the
candidate's first character. -/
def startBoundary (prev : Option Char) (first : Char) : Bool :=
  prevIsWord prev != isWordChar first

/-- Word boundary at the end of a match whose last character is a word
character: the next character is absent or not a word character. -/
def endBoundaryOk (rest : List Char) : Bool :=
  match rest.head? with
  | none => true
  | some c => !(isWordChar c)

def isSepChar (c : Char) : Bool := c = '-' || c = '.'

/-- Consume exactly `n` ASCII digits, returning the remainder. -/
def dropDigits : Nat → List Char → Option (List Char)
  | 0, s => some s
  | _ + 1, [] => none
  | n + 1, c :: cs => if c.isDigit then dropDigits n cs else none

/-- Four digits then a closing word boundary. -/
def matchD4B (r : List Char) : Option (List Char) :=
  match dropDigits 4 r with
  | some rest => if endBoundaryOk rest then some rest else none
  | none => none

/-- Optional greedy separator, then four digits and the closing boundary. -/
def matchSepD4B (r : List Char) : Option (List Char) :=
  match r with
  | [] => none
  | c :: cs =>
      if isSepChar c then (matchD4B cs).orElse (fun _ => matchD4B (c :: cs))
      else matchD4B (c :: cs)

/-- Three digits, then the optional-separator/four-digit tail. -/
def matchD3SepD4B (r : List Char) : Option (List Char) :=
  match dropDigits 3 r with
  | some rest => matchSepD4B rest
  | none => none

/-- Optional greedy separator, then three digits, separator, four digits. -/
def matchSepD3SepD4B (r : List Char) : Option (List Char) :=
  match r with
  | [] => none
  | c :: cs =>
      if isSepChar c then (matchD3SepD4B cs).orElse (fun _ => matchD3SepD4B (c :: cs))
      else matchD3SepD4B (c :: cs)

/-- Length of the phone-pattern match starting at the current position, if
any: word boundary, three digits, optional dash-or-dot, three digits,
optional dash-or-dot, four digits, word boundary
(src/ai_services.py line 101). The first character of any match is a digit,
so the opening boundary holds exactly when the previous character is not a
word character. -/
def phoneMatchAt (prev : Option Char) (s : List Char) : Option Nat :=
  if prevIsWord prev then none
  else
    match dropDigits 3 s with
    | some rest =>
        match matchSepD3SepD4B rest with
        | some rest2 => some (s.length - rest2.length)
        | none => none
    | none => none

def isEmailLocalChar (c : Char) : Bool :=
  c.isAlpha || c.isDigit || c = '.' || c = '_' || c = '%' || c = '+' || c = '-'

def isEmailDomainChar (c : Char) : Bool :=
  c.isAlpha || c.isDigit || c = '.' || c = '-'

/-- Greedy backtracking over the split of the domain run before the final
dot-plus-TLD of the email pattern: the domain-run length is tried descending,
mirroring the greedy plus quantifier. Returns the number of characters
consumed from `rest2` on success. -/
def tryDomain (rest2 : List Char) : Nat → Option Nat
  | 0 => none
  | k + 1 =>
      match rest2.drop (k + 1) with
      | '.' :: tl =>
          let tld := tl.takeWhile Char.isAlpha
          if 2 ≤ tld.length && endBoundaryOk (tl.drop tld.length) then
            some (k + 1 + 1 + tld.length)
          else tryDomain rest2 k
      | _ => tryDomain rest2 k

/-- Length of the email-pattern match starting at the current position, if
any: word boundary, a nonempty local-part run, an at sign, a nonempty domain
run, a dot, a TLD of at least two letters, word boundary
(src/ai_services.py line 98). The local-part run is deterministic because the
at sign is not a local-part character. -/
def emailMatchAt (prev : Option Char) (s : List Char) : Option Nat :=
  let run1 := s.takeWhile isEmailLocalChar
  match run1.head? with
  | none => none
  | some first =>
      if !(startBoundary prev first) then none
      else
        match s.drop run1.length with
        | '@' :: rest2 =>
            let maxRun := (rest2.takeWhile isEmailDomainChar).length
            match tryDomain rest2 maxRun with
            | some dl => some (run1.length + 1 + dl)
            | none => none
        | _ => none

/-- One pass of Python `re.sub`: scan the original text left to right,
replace each leftmost non-overlapping match and resume after the matched
region; the boundary context of a later position is the original text's
preceding character. The fuel starts at the text length and every step
consumes at least one character. A reported match length of zero (which the
two matchers above never produce) is treated as no match. -/
def reSubAux (m : Option Char → List Char → Option Nat) (repl : List Char) :
    Nat → Option Char → List Char → List Char
  | 0, _, s => s
  | _ + 1, _, [] => []
  | fuel + 1, prev, c :: cs =>
      match m prev (c :: cs) with
      | some (n + 1) =>
          repl ++ reSubAux m repl fuel (((c :: cs).take (n + 1)).getLast?)
            ((c :: cs).drop (n + 1))
      | _ => c :: reSubAux m repl fuel (some c) cs

def reSub (m : Option Char → List Char → Option Nat) (repl : List Char)
    (s : List Char) : List Char :=
  reSubAux m repl s.length none s

/-- `AIService._basic_pii_removal` (src/ai_services.py lines 97-104): the
email substitution runs first, the phone substitution runs on its output. -/
def basic_pii_removal (text : String) : String :=
  let afterEmail := reSub emailMatchAt ("[email removed]".toList) text.toList
  let afterPhone := reSub phoneMatchAt ("[phone removed]".toList) afterEmail
  String.mk afterPhone

/-- `AIService.sanitize_and_enrich_profile` (src/ai_services.py lines 48-95),
parameterized by the outcome of the chat-completion-plus-JSON-parse step: on
success the parsed triple is returned; on any exception the fallback returns
the pattern-cleaned bio, the original tags, and `pii_found = False`. -/
def sanitize_and_enrich_profile (llm : Except String (String × List String × Bool))
    (bio : String) (interest_tags : List String) : String × List String × Bool :=
  match llm with
  | Except.ok r => r
  | Except.error _ => (basic_pii_removal bio, interest_tags, false)

/-- `AIService.create_embedding_payload` (src/ai_services.py lines 115-117). -/
def create_embedding_payload (bio : String) (tags : List String) : String :=
  let sep : String := ", "
  "Bio: " ++ bio ++ "\nInterests: " ++ String.intercalate sep tags

/- ## Core stages (src/celery_tasks.py) -/

/-- Tier classification from the best post-reorder score
(src/celery_tasks.py lines 144-151). The source literals 0.87 and 0.55 are
embedded as the rationals 87/100 and 55/100, written with `mkRat` so that
the comparisons evaluate by kernel reduction. -/
def classifyTier (top_score : ℚ) : MatchTier :=
  if top_score > mkRat 87 100 then MatchTier.SOULMATE
  else if top_score < mkRat 55 100 then MatchTier.FALLBACK
  else MatchTier.EXPLORER

/-- Lookup in the Python dict comprehension `community_map`
(src/celery_tasks.py line 119): on duplicate ids the last record wins. -/
def lookupCommunity (communities : List CommunityRecord) (cid : String) :
    Option CommunityRecord :=
  communities.reverse.find? (fun c => c.community_id == cid)

/-- One iteration of the merge loop (src/celery_tasks.py lines 122-133):
a vector match whose id is in the candidate map becomes an enriched entry
carrying the record's display fields and the vector score; otherwise it is
dropped. -/
def enrichOne (communities : List CommunityRecord) (v : VectorMatch) :
    Option CommunityMatch :=
  match lookupCommunity communities v.community_id with
  | some sql_data =>
      some (CommunityMatch.mk v.community_id sql_data.community_name
        sql_data.category v.match_score sql_data.member_count
        sql_data.recent_activity)
  | none => none

/-- The merge step (src/celery_tasks.py lines 121-133). -/
def mergeResults (vector_results : List VectorMatch)
    (communities : List CommunityRecord) : List CommunityMatch :=
  vector_results.filterMap (enrichOne communities)

/-- Number of distinct keys of a list of categories, the length of the
Python `Counter` built at src/celery_tasks.py line 187. -/
def countDistinct : List String → Nat
  | [] => 0
  | c :: cs => if cs.contains c then countDistinct cs else countDistinct cs + 1

/-- Index of the first entry whose category differs from the dominant one,
the scan of src/celery_tasks.py lines 191-192. -/
def findDiffIdx (dominant : String) : List CommunityMatch → Option Nat
  | [] => none
  | m :: ms =>
      if m.category != dominant then some 0
      else (findDiffIdx dominant ms).map (fun i => i + 1)

/-- `_apply_diversity` (src/celery_tasks.py lines 181-197) as a pure
function: no-op below four entries; if the top-three categories are all one
(the Counter has a single key), the first later entry with a different
category is popped from its index `j + 3` and reinserted at index 2; at most
one such move is performed. -/
def apply_diversity («matches» : List CommunityMatch) : List CommunityMatch :=
  if «matches».length < 4 then «matches»
  else
    let top_categories := («matches».take 3).map (fun m => m.category)
    if countDistinct top_categories == 1 then
      let dominant :=
        match top_categories with
        | c :: _ => c
        | [] => ""
      match findDiffIdx dominant («matches».drop 3) with
      | some j =>
          match («matches».drop 3).get? j with
          | some diverse =>
              let popped := «matches».take (j + 3) ++ «matches».drop (j + 4)
              popped.take 2 ++ diverse :: popped.drop 2
          | none => «matches»
      | none => «matches»
    else «matches»

/- ## Spec-modelled collaborators (their sources are not part of the corpus) -/

/-- Modelled from the spec: `db_manager.get_popular_communities`
(src/database.py is missing from the corpus). Section 6 gives
`popular(limit) -> CommunityRecord[]`, a popularity-ordered list of at most
`limit` records; the task calls it with no explicit limit, and section 3's
invariant of at most five matches in the terminal result pins the default
limit to five, because the structural-fallback branch
(src/celery_tasks.py lines 85-107) turns every returned record into a match
without truncating. -/
def get_popular_communities (pool : List CommunityRecord) : List CommunityRecord :=
  pool.take 5

/-- Modelled from the spec: `db_manager.vector_search` (src/database.py is
missing from the corpus). Section 6: the ranker returns a list of length at
most `top_k`, ordered by score. Section 4.1 allows the returned ids to
disagree with the candidate set (an index/store mismatch), so the underlying
index response is an arbitrary behaviour and only the `top_k` bound is
enforced here. -/
def vector_search (raw : Except String (List VectorMatch)) (top_k : Nat) :
    Except String (List VectorMatch) :=
  Except.map (fun l => l.take top_k) raw

/-- The behaviour of the external collaborators during one task execution:
each field is the outcome of the corresponding call (`Except.error` models a
raised exception, carrying the exception's string form). The embedding call
depends on the text it is given and the raw ranker response depends on the
query vector and the restriction ids. -/
structure Collab where
  sanitizeLLM : Except String (String × List String × Bool)
  embed : String → Except String (List ℚ)
  set_user_vector : Except String Unit
  filter_by_location : Except String (List CommunityRecord)
  popular_pool : Except String (List CommunityRecord)
  search_raw : List ℚ → List String → Except String (List VectorMatch)
  publish_result : Except String Unit

/-- The failure message of the empty-merge condition
(src/celery_tasks.py line 139). -/
def mergeFailureMsg : String := "No matching communities after merge"

/-- The structural-fallback construction of one match
(src/celery_tasks.py lines 87-97): `match_score = 0.0`, the other fields
copied from the popular record. -/
def fallbackMatch (c : CommunityRecord) : CommunityMatch :=
  CommunityMatch.mk c.community_id c.community_name c.category 0
    c.member_count c.recent_activity

/-- The best post-reorder score, `enriched_results[0]["match_score"]`
(src/celery_tasks.py line 144); the empty case is unreachable because the
list was checked nonempty and the diversity pass preserves the length. -/
def headScore (l : List CommunityMatch) : ℚ :=
  match l with
  | m :: _ => m.match_score
  | [] => 0

/-- The embedding-payload text the task submits for a given user and
collaborator behaviour (src/celery_tasks.py lines 64-74). -/
def embeddingTextOf (u : UserData) (c : Collab) : String :=
  create_embedding_payload
    (sanitize_and_enrich_profile c.sanitizeLLM u.bio u.interest_tags).1
    (sanitize_and_enrich_profile c.sanitizeLLM u.bio u.interest_tags).2.1

/-- Shallow embedding of `process_match_task` (src/celery_tasks.py lines
56-178). The outer `try` is the final pattern matches: any collaborator
exception not locally handled becomes the failure payload of lines 172-178.
Alongside the terminal payload, the trace of attempted collaborator calls is
returned in order. `elapsed_ms` stands for the wall-clock measurement of
lines 104 and 163. -/
def process_match_task (task_id : String) (elapsed_ms : Nat) (u : UserData)
    (c : Collab) : Payload × List Effect :=
  let t1 : List Effect := [Effect.sanitizeCall, Effect.embedCall]
  match c.embed (embeddingTextOf u c) with
  | Except.error e => (Payload.failure task_id e, t1)
  | Except.ok user_vector =>
    let t2 := t1 ++ [Effect.cacheVector u.user_id]
    match c.set_user_vector with
    | Except.error e => (Payload.failure task_id e, t2)
    | Except.ok _ =>
      let t3 := t2 ++ [Effect.filterByLocation]
      match c.filter_by_location with
      | Except.error e => (Payload.failure task_id e, t3)
      | Except.ok communities =>
        if communities.isEmpty then
          let t4 := t3 ++ [Effect.popularQuery]
          match c.popular_pool with
          | Except.error e => (Payload.failure task_id e, t4)
          | Except.ok pool =>
            let ms := (get_popular_communities pool).map fallbackMatch
            (Payload.success (MatchResult.mk task_id u.user_id
              MatchTier.FALLBACK ms elapsed_ms), t4)
        else
          let community_ids := communities.map (fun cr => cr.community_id)
          let t5 := t3 ++ [Effect.rankerQuery 10]
          match vector_search (c.search_raw user_vector community_ids) 10 with
          | Except.error e => (Payload.failure task_id e, t5)
          | Except.ok vector_results =>
            let enriched_results := mergeResults vector_results communities
            if enriched_results.isEmpty then
              (Payload.failure task_id mergeFailureMsg, t5)
            else
              let reordered := apply_diversity enriched_results
              let tier := classifyTier (headScore reordered)
              let result := MatchResult.mk task_id u.user_id tier
                (reordered.take 5) elapsed_ms
              let t6 := t5 ++ [Effect.publishCall u.user_id]
              match c.publish_result with
              | Except.error e => (Payload.failure task_id e, t6)
              | Except.ok _ => (Payload.success result, t6)

/- ## Helper lemmas: pipeline branch characterizations -/

/-- On an empty candidate set (and healthy earlier steps) the task takes the
structural-fallback branch. -/
theorem process_eq_fallback (tid : String) (el : Nat) (u : UserData)
    (c : Collab) (v : List ℚ) (pool : List CommunityRecord)
    (he : c.embed (embeddingTextOf u c) = Except.ok v)
    (hc : c.set_user_vector = Except.ok ())
    (hf : c.filter_by_location = Except.ok [])
    (hp : c.popular_pool = Except.ok pool) :
    process_match_task tid el u c =
      (Payload.success (MatchResult.mk tid u.user_id MatchTier.FALLBACK
        ((get_popular_communities pool).map fallbackMatch) el),
       [Effect.sanitizeCall, Effect.embedCall, Effect.cacheVector u.user_id,
        Effect.filterByLocation, Effect.popularQuery]) := by
  simp [process_match_task, he, hc, hf, hp]

/-- On a nonempty candidate set whose merge with the ranker output is empty,
the task fails with the merge-failure message. -/
theorem process_eq_empty_merge (tid : String) (el : Nat) (u : UserData)
    (c : Collab) (v : List ℚ) (communities : List CommunityRecord)
    (l : List VectorMatch)
    (he : c.embed (embeddingTextOf u c) = Except.ok v)
    (hc : c.set_user_vector = Except.ok ())
    (hf : c.filter_by_location = Except.ok communities)
    (hne : communities ≠ [])
    (hs : c.search_raw v (communities.map (fun cr => cr.community_id)) =
      Except.ok l)
    (hm : mergeResults (l.take 10) communities = []) :
    process_match_task tid el u c =
      (Payload.failure tid mergeFailureMsg,
       [Effect.sanitizeCall, Effect.embedCall, Effect.cacheVector u.user_id,
        Effect.filterByLocation, Effect.rankerQuery 10]) := by
  simp [process_match_task, he, hc, hf, hne, hs, vector_search, Except.map, hm]

/-- On a nonempty candidate set with a nonempty merge and a successful
publish, the task succeeds with the classified tier and the first five
post-reorder entries. -/
theorem process_eq_vector_success (tid : String) (el : Nat) (u : UserData)
    (c : Collab) (v : List ℚ) (communities : List CommunityRecord)
    (l : List VectorMatch)
    (he : c.embed (embeddingTextOf u c) = Except.ok v)
    (hc : c.set_user_vector = Except.ok ())
    (hf : c.filter_by_location = Except.ok communities)
    (hne : communities ≠ [])
    (hs : c.search_raw v (communities.map (fun cr => cr.community_id)) =
      Except.ok l)
    (hm : mergeResults (l.take 10) communities ≠ [])
    (hpub : c.publish_result = Except.ok ()) :
    process_match_task tid el u c =
      (Payload.success (MatchResult.mk tid u.user_id
        (classifyTier (headScore (apply_diversity
          (mergeResults (l.take 10) communities))))
        ((apply_diversity (mergeResults (l.take 10) communities)).take 5) el),
       [Effect.sanitizeCall, Effect.embedCall, Effect.cacheVector u.user_id,
        Effect.filterByLocation, Effect.rankerQuery 10,
        Effect.publishCall u.user_id]) := by
  simp [process_match_task, he, hc, hf, hne, hs, vector_search, Except.map, hm, hpub]

/-- Same as `process_eq_vector_success` but with a failing publish call: the
exception escapes to the outer boundary and the task reports failure. -/
theorem process_eq_publish_failure (tid : String) (el : Nat) (u : UserData)
    (c : Collab) (v : List ℚ) (communities : List CommunityRecord)
    (l : List VectorMatch) (e : String)
    (he : c.embed (embeddingTextOf u c) = Except.ok v)
    (hc : c.set_user_vector = Except.ok ())
    (hf : c.filter_by_location = Except.ok communities)
    (hne : communities ≠ [])
    (hs : c.search_raw v (communities.map (fun cr => cr.community_id)) =
      Except.ok l)
    (hm : mergeResults (l.take 10) communities ≠ [])
    (hpub : c.publish_result = Except.error e) :
    process_match_task tid el u c =
      (Payload.failure tid e,
       [Effect.sanitizeCall, Effect.embedCall, Effect.cacheVector u.user_id,
        Effect.filterByLocation, Effect.rankerQuery 10,
        Effect.publishCall u.user_id]) := by
  simp [process_match_task, he, hc, hf, hne, hs, vector_search, Except.map, hm, hpub]

/- ## C1: tier thresholds -/

/-- C1: the tier assigned from the best post-reorder score is SOULMATE
exactly when the score exceeds 0.87, FALLBACK exactly when it is below 0.55,
and EXPLORER otherwise; in particular 0.87 and 0.55 give EXPLORER, 0.871
gives SOULMATE and 0.549 gives FALLBACK. -/
theorem classifyTier_thresholds :
    (∀ s : ℚ, classifyTier s = MatchTier.SOULMATE ↔ 87/100 < s) ∧
    (∀ s : ℚ, classifyTier s = MatchTier.FALLBACK ↔ s < 55/100) ∧
    (∀ s : ℚ, classifyTier s = MatchTier.EXPLORER ↔
      55/100 ≤ s ∧ s ≤ 87/100) ∧
    classifyTier (87/100) = MatchTier.EXPLORER ∧
    classifyTier (55/100) = MatchTier.EXPLORER ∧
    classifyTier (871/1000) = MatchTier.SOULMATE ∧
    classifyTier (549/1000) = MatchTier.FALLBACK := by
  have key : ∀ s : ℚ,
      (classifyTier s = MatchTier.SOULMATE ↔ 87/100 < s) ∧
      (classifyTier s = MatchTier.FALLBACK ↔ s < 55/100) ∧
      (classifyTier s = MatchTier.EXPLORER ↔ 55/100 ≤ s ∧ s ≤ 87/100) := by
    intro s
    have e87 : (mkRat 87 100 : ℚ) = 87/100 := by norm_num [mkRat, Rat.normalize]
    have e55 : (mkRat 55 100 : ℚ) = 55/100 := by norm_num [mkRat, Rat.normalize]
    unfold classifyTier
    simp only [e87, e55]
    by_cases h1 : s > 87/100
    · rw [if_pos h1]
      refine ⟨by simp [h1], ?_, ?_⟩
      · constructor
        · intro h; exact absurd h (by simp)
        · intro h; exfalso; linarith
      · constructor
        · intro h; exact absurd h (by simp)
        · intro h; exfalso; linarith [h.2]
    · rw [if_neg h1]
      by_cases h2 : s < 55/100
      · rw [if_pos h2]
        refine ⟨?_, by simp [h2], ?_⟩
        · constructor
          · intro h; exact absurd h (by simp)
          · intro h; exfalso; exact h1 h
        · constructor
          · intro h; exact absurd h (by simp)
          · intro h; exfalso; linarith [h.1]
      · rw [if_neg h2]
        refine ⟨?_, ?_, ?_⟩
        · constructor
          · intro h; exact absurd h (by simp)
          · intro h; exfalso; exact h1 h
        · constructor
          · intro h; exact absurd h (by simp)
          · intro h; exfalso; exact h2 h
        · simp
          exact ⟨le_of_not_lt h2, le_of_not_lt h1⟩
  refine ⟨fun s => (key s).1, fun s => (key s).2.1, fun s => (key s).2.2,
    ?_, ?_, ?_, ?_⟩
  · exact ((key (87/100)).2.2).2 (by norm_num)
  · exact ((key (55/100)).2.2).2 (by norm_num)
  · exact ((key (871/1000)).1).2 (by norm_num)
  · exact ((key (549/1000)).2.1).2 (by norm_num)


/- ## Diversity pass lemmas and C2 -/

/-- A three-key Counter has a single key exactly when all three categories
coincide (src/celery_tasks.py lines 186-189). -/
theorem countDistinct_three (c0 c1 c2 : String) :
    countDistinct [c0, c1, c2] = 1 ↔ (c1 = c0 ∧ c2 = c0) := by
  by_cases h1 : c1 = c0 <;> by_cases h2 : c2 = c0
  · subst h1; subst h2
    simp [countDistinct, List.contains]
  · subst h1
    have n3 : ¬ c1 = c2 := fun h => h2 h.symm
    simp [countDistinct, List.contains, n3, h2]
  · subst h2
    have n3 : ¬ c2 = c1 := fun h => h1 h.symm
    simp [countDistinct, List.contains, n3, h1]
  · have n1 : ¬ c0 = c1 := fun h => h1 h.symm
    have n2 : ¬ c0 = c2 := fun h => h2 h.symm
    by_cases h3 : c1 = c2
    · simp [countDistinct, List.contains, n1, n2, h3, h1, h2]
    · simp [countDistinct, List.contains, n1, n2, h3, h1]

/-- When the top three categories agree and `j` is the index (within the
tail) found by the scan, the pop/insert of src/celery_tasks.py lines 193-194
moves that entry to position 2 and shifts the former third entry down. -/
theorem apply_diversity_swap (a0 a1 a2 : CommunityMatch)
    (rest : List CommunityMatch) (j : Nat) (d : CommunityMatch)
    (h1 : a1.category = a0.category) (h2 : a2.category = a0.category)
    (hfind : findDiffIdx a0.category rest = some j)
    (hget : rest.get? j = some d) :
    apply_diversity (a0 :: a1 :: a2 :: rest) =
      a0 :: a1 :: d :: a2 :: rest.eraseIdx j := by
  have hlen : j < rest.length := by
    by_contra hc
    rw [List.get?_eq_none.mpr (by omega)] at hget
    exact Option.noConfusion hget
  have hnotlt : ¬ (a0 :: a1 :: a2 :: rest).length < 4 := by
    simp; omega
  have hcd : countDistinct [a0.category, a1.category, a2.category] = 1 :=
    (countDistinct_three a0.category a1.category a2.category).mpr ⟨h1, h2⟩
  have hdrop : (a0 :: a1 :: a2 :: rest).drop 3 = rest := by simp
  have htake : (a0 :: a1 :: a2 :: rest).take (j + 3) =
      a0 :: a1 :: a2 :: rest.take j := by
    rw [show j + 3 = (j + 2) + 1 by omega, List.take_succ_cons,
        show j + 2 = (j + 1) + 1 by omega, List.take_succ_cons,
        List.take_succ_cons]
  have hdrop4 : (a0 :: a1 :: a2 :: rest).drop (j + 4) = rest.drop (j + 1) := by
    rw [show j + 4 = (j + 3) + 1 by omega, List.drop_succ_cons,
        show j + 3 = (j + 2) + 1 by omega, List.drop_succ_cons,
        show j + 2 = (j + 1) + 1 by omega, List.drop_succ_cons]
  have htop : List.map (fun m => m.category) (List.take 3 (a0 :: a1 :: a2 :: rest)) =
      [a0.category, a1.category, a2.category] := by simp
  simp only [apply_diversity, if_neg hnotlt, htop, hcd, beq_self_eq_true,
    if_pos, hdrop, hfind, hget]
  rw [htake, hdrop4]
  simp [List.eraseIdx_eq_take_drop_succ]

/-- The scan finds no index exactly when every entry carries the dominant
category. -/
theorem findDiffIdx_eq_none (dominant : String) (l : List CommunityMatch) :
    findDiffIdx dominant l = none ↔ ∀ m ∈ l, m.category = dominant := by
  induction l with
  | nil => simp [findDiffIdx]
  | cons m ms ih =>
      by_cases h : m.category = dominant
      · simp [findDiffIdx, h, ih]
      · simp [findDiffIdx, h]

/-- Below four entries the diversity pass is a no-op. -/
theorem apply_diversity_short (ms : List CommunityMatch)
    (h : ms.length < 4) : apply_diversity ms = ms := by
  unfold apply_diversity
  rw [if_pos h]

/-- With mixed top-three categories the diversity pass is a no-op. -/
theorem apply_diversity_mixed_top (ms : List CommunityMatch)
    (h : countDistinct ((ms.take 3).map (fun m => m.category)) ≠ 1) :
    apply_diversity ms = ms := by
  by_cases hl : ms.length < 4
  · exact apply_diversity_short ms hl
  · unfold apply_diversity
    rw [if_neg hl]
    have : ((countDistinct ((ms.take 3).map (fun m => m.category))) == 1) = false :=
      beq_eq_false_iff_ne.mpr h
    simp only [this]
    simp

/-- With no differently-categorized entry after position 2 the diversity
pass is a no-op. -/
theorem apply_diversity_no_alternative (a0 a1 a2 : CommunityMatch)
    (rest : List CommunityMatch)
    (hall : ∀ m ∈ rest, m.category = a0.category) :
    apply_diversity (a0 :: a1 :: a2 :: rest) = a0 :: a1 :: a2 :: rest := by
  by_cases hl : (a0 :: a1 :: a2 :: rest).length < 4
  · exact apply_diversity_short _ hl
  · have htop : List.map (fun m => m.category)
        (List.take 3 (a0 :: a1 :: a2 :: rest)) =
        [a0.category, a1.category, a2.category] := by simp
    by_cases hcd : countDistinct [a0.category, a1.category, a2.category] = 1
    · have hdrop : List.drop 3 (a0 :: a1 :: a2 :: rest) = rest := by simp
      have hfind : findDiffIdx a0.category rest = none :=
        (findDiffIdx_eq_none a0.category rest).mpr hall
      simp only [apply_diversity, if_neg hl, htop, hcd, beq_self_eq_true,
        if_pos, hdrop, hfind]
    · exact apply_diversity_mixed_top _ (by rw [htop]; exact hcd)

/-- The scan returns `j` exactly when the entry at `j` departs from the
dominant category and every earlier entry carries it. -/
theorem findDiffIdx_eq_some (dominant : String) (l : List CommunityMatch)
    (j : Nat) :
    findDiffIdx dominant l = some j ↔
      ((∃ d, l.get? j = some d ∧ d.category ≠ dominant) ∧
       ∀ i < j, ∀ m, l.get? i = some m → m.category = dominant) := by
  induction l generalizing j with
  | nil => simp [findDiffIdx]
  | cons m ms ih =>
      by_cases h : m.category = dominant
      · have hstep : findDiffIdx dominant (m :: ms) =
            (findDiffIdx dominant ms).map (fun i => i + 1) := by
          simp [findDiffIdx, h]
        rw [hstep]
        constructor
        · intro hj
          rw [Option.map_eq_some'] at hj
          obtain ⟨j', hj', hjeq⟩ := hj
          subst hjeq
          obtain ⟨⟨d, hd, hdc⟩, hmin⟩ := (ih j').mp hj'
          refine ⟨⟨d, by simpa using hd, hdc⟩, ?_⟩
          intro i hlt mm hmm
          cases i with
          | zero =>
              have hmmm : m = mm := by simpa using hmm
              rw [← hmmm]; exact h
          | succ i' =>
              exact hmin i' (by omega) mm (by simpa using hmm)
        · rintro ⟨⟨d, hd, hdc⟩, hmin⟩
          cases j with
          | zero =>
              have hdm : m = d := by simpa using hd
              exact absurd (hdm ▸ h) hdc
          | succ j' =>
              rw [Option.map_eq_some']
              refine ⟨j', (ih j').mpr ⟨⟨d, by simpa using hd, hdc⟩, ?_⟩, rfl⟩
              intro i hlt mm hmm
              exact hmin (i + 1) (by omega) mm (by simpa using hmm)
      · have hstep : findDiffIdx dominant (m :: ms) = some 0 := by
          simp [findDiffIdx, h]
        rw [hstep]
        constructor
        · intro hj
          have : j = 0 := by simpa using hj.symm
          subst this
          exact ⟨⟨m, by simp, h⟩, fun i hlt => absurd hlt (by omega)⟩
        · rintro ⟨⟨d, hd, hdc⟩, hmin⟩
          cases j with
          | zero => rfl
          | succ j' => exact absurd (hmin 0 (by omega) m (by simp)) h

/-- C2: the diversity pass leaves the list unchanged when it has fewer than
four entries, when the top-three categories are not all equal, or when every
entry from position 3 on shares the top category; otherwise it removes the
first later entry whose category differs and reinserts it at position 2
(the former third entry shifting down one slot), one move at most, after
which the top three are not all of one category; the explicit output shape
shows the relative order of all other elements is preserved. -/
theorem diversity_pass_spec (ms : List CommunityMatch) :
    (ms.length < 4 → apply_diversity ms = ms) ∧
    (countDistinct ((ms.take 3).map (fun m => m.category)) ≠ 1 →
      apply_diversity ms = ms) ∧
    (∀ a0 a1 a2 rest, ms = a0 :: a1 :: a2 :: rest →
      (∀ m ∈ rest, m.category = a0.category) → apply_diversity ms = ms) ∧
    (∀ a0 a1 a2 rest j d, ms = a0 :: a1 :: a2 :: rest →
      a1.category = a0.category → a2.category = a0.category →
      rest.get? j = some d → d.category ≠ a0.category →
      (∀ i < j, ∀ m, rest.get? i = some m → m.category = a0.category) →
      apply_diversity ms = a0 :: a1 :: d :: a2 :: rest.eraseIdx j ∧
      countDistinct (((apply_diversity ms).take 3).map
        (fun m => m.category)) ≠ 1) := by
  refine ⟨apply_diversity_short ms, apply_diversity_mixed_top ms, ?_, ?_⟩
  · rintro a0 a1 a2 rest rfl hall
    exact apply_diversity_no_alternative a0 a1 a2 rest hall
  · rintro a0 a1 a2 rest j d rfl h1 h2 hget hd hmin
    have hfind : findDiffIdx a0.category rest = some j :=
      (findDiffIdx_eq_some a0.category rest j).mpr ⟨⟨d, hget, hd⟩, hmin⟩
    have heq := apply_diversity_swap a0 a1 a2 rest j d h1 h2 hfind hget
    refine ⟨heq, ?_⟩
    rw [heq]
    have htop3 : List.map (fun m => m.category)
        (List.take 3 (a0 :: a1 :: d :: a2 :: rest.eraseIdx j)) =
        [a0.category, a1.category, d.category] := by simp
    rw [htop3]
    intro hcd
    exact hd ((countDistinct_three _ _ _).mp hcd).2

/- ## Pipeline claim theorems, exhibits and witnesses -/

/-- C3: every terminal success payload carries at most five matches, on
either branch; the ranker is queried with top_k = 10 and the merge stage is
never given more than ten vector matches (the spec-modelled `vector_search`
bounds its output by top_k). -/
theorem final_size_and_topk :
    (∀ tid el u c r tr, process_match_task tid el u c = (Payload.success r, tr) →
      r.«matches».length ≤ 5) ∧
    (∀ raw l, vector_search raw 10 = Except.ok l → l.length ≤ 10) ∧
    (∀ tid el u c k, Effect.rankerQuery k ∈ (process_match_task tid el u c).2 →
      k = 10) := by
  refine ⟨?_, ?_, ?_⟩
  · intro tid el u c r tr h
    simp only [process_match_task] at h
    repeat' split at h
    all_goals injection h with h1 h2
    all_goals first
      | exact Payload.noConfusion h1
      | (injection h1 with h1'
         subst h1'
         simp [get_popular_communities]
         try omega)
  · intro raw l h
    cases raw with
    | error e => simp [vector_search, Except.map] at h
    | ok l' =>
        simp [vector_search, Except.map] at h
        rw [← h]
        simp
  · intro tid el u c k h
    simp only [process_match_task] at h
    repeat' split at h
    all_goals simp_all

/-- C7 (amended): for every input and every collaborator behaviour the
pipeline never throws past its boundary: it terminates in a well-formed
success payload, or in a failure payload carrying the task_id, status
failed, and the raised exception's message as error string (the message,
hence the error string, may be empty). -/
theorem boundary_totality : ∀ tid el u c,
    (∃ r, (process_match_task tid el u c).1 = Payload.success r ∧
      r.task_id = tid) ∨
    (∃ e, (process_match_task tid el u c).1 = Payload.failure tid e) := by
  intro tid el u c
  simp only [process_match_task]
  repeat' split
  all_goals simp

/-- C5: when the location filter returns an empty candidate set (and the
steps before it succeed), the pipeline takes the structural-fallback branch:
it returns a success whose tier is FALLBACK with every match's score exactly
0, it never queries the vector ranker, and its outcome is independent of the
embedding content and of the ranker behaviour. -/
theorem structural_fallback_spec :
    (∀ tid el u (c : Collab) v pool,
      c.embed (embeddingTextOf u c) = Except.ok v →
      c.set_user_vector = Except.ok () →
      c.filter_by_location = Except.ok [] →
      c.popular_pool = Except.ok pool →
      (process_match_task tid el u c).1 = Payload.success
        (MatchResult.mk tid u.user_id MatchTier.FALLBACK
          ((get_popular_communities pool).map fallbackMatch) el) ∧
      ∀ m ∈ (get_popular_communities pool).map fallbackMatch,
        m.match_score = 0) ∧
    (∀ tid el u (c : Collab) k,
      c.filter_by_location = Except.ok [] →
      Effect.rankerQuery k ∉ (process_match_task tid el u c).2) ∧
    (∀ tid el u (c1 c2 : Collab) v1 v2,
      c1.sanitizeLLM = c2.sanitizeLLM →
      c1.set_user_vector = c2.set_user_vector →
      c1.filter_by_location = c2.filter_by_location →
      c1.popular_pool = c2.popular_pool →
      c1.filter_by_location = Except.ok [] →
      c1.embed (embeddingTextOf u c1) = Except.ok v1 →
      c2.embed (embeddingTextOf u c2) = Except.ok v2 →
      process_match_task tid el u c1 = process_match_task tid el u c2) := by
  refine ⟨?_, ?_, ?_⟩
  · intro tid el u c v pool he hc hf hp
    rw [process_eq_fallback tid el u c v pool he hc hf hp]
    refine ⟨rfl, ?_⟩
    intro m hm
    simp [List.mem_map] at hm
    obtain ⟨cr, _, rfl⟩ := hm
    rfl
  · intro tid el u c k hf h
    simp only [process_match_task] at h
    repeat' split at h
    all_goals simp_all
  · intro tid el u c1 c2 v1 v2 hsan hsv hfl hpp hf he1 he2
    have hf2 : c2.filter_by_location = Except.ok [] := by rw [← hfl]; exact hf
    simp only [process_match_task, he1, he2]
    cases hsvv : c1.set_user_vector with
    | error e =>
        have h2 : c2.set_user_vector = Except.error e := by
          rw [← hsv]; exact hsvv
        simp [h2]
    | ok uu =>
        have h2 : c2.set_user_vector = Except.ok uu := by
          rw [← hsv]; exact hsvv
        simp only [h2, hf, hf2]
        cases hppp : c1.popular_pool with
        | error e =>
            have hp2 : c2.popular_pool = Except.error e := by
              rw [← hpp]; exact hppp
            simp [hp2]
        | ok pool =>
            have hp2 : c2.popular_pool = Except.ok pool := by
              rw [← hpp]; exact hppp
            simp [hp2]

/-- C6: on the vector-search branch, when no vector match's community id
appears in the candidate map, the task fails with exactly the message
"No matching communities after merge"; the empty-candidate case instead
succeeds through the fallback branch, so the two outcomes are distinct. -/
theorem empty_merge_spec :
    (∀ tid el u (c : Collab) v communities l,
      c.embed (embeddingTextOf u c) = Except.ok v →
      c.set_user_vector = Except.ok () →
      c.filter_by_location = Except.ok communities →
      communities ≠ [] →
      c.search_raw v (communities.map (fun cr => cr.community_id)) =
        Except.ok l →
      mergeResults (l.take 10) communities = [] →
      (process_match_task tid el u c).1 = Payload.failure tid mergeFailureMsg) ∧
    mergeFailureMsg = "No matching communities after merge" ∧
    (∀ tid el u (c : Collab) v pool,
      c.embed (embeddingTextOf u c) = Except.ok v →
      c.set_user_vector = Except.ok () →
      c.filter_by_location = Except.ok [] →
      c.popular_pool = Except.ok pool →
      ∃ r, (process_match_task tid el u c).1 = Payload.success r ∧
        r.tier = MatchTier.FALLBACK) := by
  refine ⟨?_, rfl, ?_⟩
  · intro tid el u c v communities l he hc hf hne hs hm
    rw [process_eq_empty_merge tid el u c v communities l he hc hf hne hs hm]
  · intro tid el u c v pool he hc hf hp
    rw [process_eq_fallback tid el u c v pool he hc hf hp]
    exact ⟨_, rfl, rfl⟩

/-- C9 (amended): the structural-fallback branch returns its MatchResult
directly as terminal output without attempting the publish side effect;
only the vector-search branch publishes before returning. -/
theorem fallback_no_publish_spec :
    (∀ tid el u (c : Collab) v pool,
      c.embed (embeddingTextOf u c) = Except.ok v →
      c.set_user_vector = Except.ok () →
      c.filter_by_location = Except.ok [] →
      c.popular_pool = Except.ok pool →
      (∃ r, (process_match_task tid el u c).1 = Payload.success r) ∧
      Effect.publishCall u.user_id ∉ (process_match_task tid el u c).2) ∧
    (∀ tid el u (c : Collab) v communities l,
      c.embed (embeddingTextOf u c) = Except.ok v →
      c.set_user_vector = Except.ok () →
      c.filter_by_location = Except.ok communities →
      communities ≠ [] →
      c.search_raw v (communities.map (fun cr => cr.community_id)) =
        Except.ok l →
      mergeResults (l.take 10) communities ≠ [] →
      c.publish_result = Except.ok () →
      Effect.publishCall u.user_id ∈ (process_match_task tid el u c).2) := by
  refine ⟨?_, ?_⟩
  · intro tid el u c v pool he hc hf hp
    rw [process_eq_fallback tid el u c v pool he hc hf hp]
    refine ⟨⟨_, rfl⟩, ?_⟩
    simp
  · intro tid el u c v communities l he hc hf hne hs hm hpub
    rw [process_eq_vector_success tid el u c v communities l he hc hf hne hs
      hm hpub]
    simp

/-- C10: the merge step is an order-preserving, field-faithful filter: the
(id, score) sequence of the enriched list is exactly that of the ranker
output filtered by candidate-map membership (in particular a sublist of the
ranker output in its original order), and every enriched entry copies
community_name, category, member_count and recent_activity unchanged from
the candidate record found under its id, with the score taken from the
vector match. -/
theorem merge_is_faithful_filter (vs : List VectorMatch)
    (communities : List CommunityRecord) :
    ((mergeResults vs communities).map
        (fun m => (m.community_id, m.match_score)) =
      (vs.filter
        (fun v => (lookupCommunity communities v.community_id).isSome)).map
        (fun v => (v.community_id, v.match_score))) ∧
    List.Sublist
      ((mergeResults vs communities).map
        (fun m => (m.community_id, m.match_score)))
      (vs.map (fun v => (v.community_id, v.match_score))) ∧
    (∀ m ∈ mergeResults vs communities,
      ∃ cr, lookupCommunity communities m.community_id = some cr ∧
        m.community_name = cr.community_name ∧
        m.category = cr.category ∧
        m.member_count = cr.member_count ∧
        m.recent_activity = cr.recent_activity) := by
  have h1 : (mergeResults vs communities).map
        (fun m => (m.community_id, m.match_score)) =
      (vs.filter
        (fun v => (lookupCommunity communities v.community_id).isSome)).map
        (fun v => (v.community_id, v.match_score)) := by
    induction vs with
    | nil => simp [mergeResults]
    | cons v vs ih =>
        cases hlk : lookupCommunity communities v.community_id with
        | none =>
            simp only [mergeResults, List.filterMap_cons, enrichOne, hlk,
              List.filter_cons] at *
            simpa [hlk] using ih
        | some cr =>
            simp only [mergeResults, List.filterMap_cons, enrichOne, hlk,
              List.filter_cons] at *
            simpa [hlk] using ih
  refine ⟨h1, ?_, ?_⟩
  · rw [h1]
    exact (List.filter_sublist vs).map _
  · intro m hm
    simp only [mergeResults, List.mem_filterMap] at hm
    obtain ⟨v, _, he⟩ := hm
    cases hlk : lookupCommunity communities v.community_id with
    | none => simp [enrichOne, hlk] at he
    | some cr =>
        simp only [enrichOne, hlk] at he
        injection he with he'
        rw [← he']
        exact ⟨cr, hlk, rfl, rfl, rfl, rfl⟩

def exBio1 : String := "reach me: bob@x.com / 555-123-4567 ok"

def exBio1Clean : String := "reach me: [email removed] / [phone removed] ok"

def exBio2 : String := "ids 12345 and name_only, no pii"

/-- C8: if the enrichment collaborator fails, `sanitize_and_enrich_profile`
recovers locally without propagating any exception (it is a total function
of the collaborator outcome): it returns the pattern-cleaned bio from
`basic_pii_removal` (emails and phone-number-shaped substrings removed), the
original interest tags unchanged, and pii_found = false; the two closed
conjuncts evaluate the pattern pass on a bio with PII and on one without. -/
theorem sanitize_fallback_spec :
    (∀ bio tags err,
      sanitize_and_enrich_profile (Except.error err) bio tags =
        (basic_pii_removal bio, tags, false)) ∧
    basic_pii_removal exBio1 = exBio1Clean ∧
    basic_pii_removal exBio2 = exBio2 := by
  refine ⟨fun bio tags err => rfl, by decide, by decide⟩

def uEx : UserData := ⟨("u1"), ("hello world"), [("music")], ("Austin"), ("UTC")⟩

def recA : CommunityRecord := ⟨("c1"), ("Jazz Club"), ("music"), 120, 5⟩

def recB : CommunityRecord := ⟨("c2"), ("Go Club"), ("games"), 50, 2⟩

def vmA : VectorMatch := ⟨("c1"), mkRat 9 10⟩

def vmZ : VectorMatch := ⟨("zz"), mkRat 1 2⟩

def sanOk : Except String (String × List String × Bool) :=
  Except.ok (("clean bio"), [("music")], false)

def cVec : Collab :=
  Collab.mk sanOk (fun _ => Except.ok [1]) (Except.ok ())
    (Except.ok [recA]) (Except.ok []) (fun _ _ => Except.ok [vmA])
    (Except.ok ())

def cPublishFail : Collab :=
  Collab.mk sanOk (fun _ => Except.ok [1]) (Except.ok ())
    (Except.ok [recA]) (Except.ok []) (fun _ _ => Except.ok [vmA])
    (Except.error ("redis down"))

def cCacheFail : Collab :=
  Collab.mk sanOk (fun _ => Except.ok [1]) (Except.error ("cache down"))
    (Except.ok [recA]) (Except.ok []) (fun _ _ => Except.ok [vmA])
    (Except.ok ())

def cFb : Collab :=
  Collab.mk sanOk (fun _ => Except.ok [1]) (Except.ok ())
    (Except.ok []) (Except.ok [recA, recB]) (fun _ _ => Except.ok [vmA])
    (Except.error ("redis down"))

def cFb2 : Collab :=
  Collab.mk sanOk (fun _ => Except.ok [2]) (Except.ok ())
    (Except.ok []) (Except.ok [recA, recB]) (fun _ _ => Except.ok [vmZ])
    (Except.error ("redis down"))

def cNoOverlap : Collab :=
  Collab.mk sanOk (fun _ => Except.ok [1]) (Except.ok ())
    (Except.ok [recA]) (Except.ok []) (fun _ _ => Except.ok [vmZ])
    (Except.ok ())

def cEmbedEmptyErr : Collab :=
  Collab.mk sanOk (fun _ => Except.error ("")) (Except.ok ())
    (Except.ok [recA]) (Except.ok []) (fun _ _ => Except.ok [vmA])
    (Except.ok ())

/-- C4 exhibit: a failing publish call or a failing cache-vector write is
not swallowed: the raised exception escapes to the outer boundary and the
task returns a failure payload, although the identical run with healthy side
effects returns a success payload. -/
theorem side_effect_failure_aborts :
    (process_match_task ("t1") 7 uEx cPublishFail).1 =
      Payload.failure ("t1") ("redis down") ∧
    (process_match_task ("t1") 7 uEx cCacheFail).1 =
      Payload.failure ("t1") ("cache down") ∧
    (process_match_task ("t1") 7 uEx cVec).1 =
      Payload.success (MatchResult.mk ("t1") ("u1") MatchTier.SOULMATE
        [CommunityMatch.mk ("c1") ("Jazz Club") ("music") (mkRat 9 10) 120 5] 7) := by
  refine ⟨?_, ?_, ?_⟩ <;> decide

/-- C7 counterexample: a collaborator raising an exception whose string
form is empty yields a failure payload whose error string is empty, against
the claim's "non-empty error string". -/
theorem boundary_empty_error_counterexample :
    (process_match_task ("t1") 7 uEx cEmbedEmptyErr).1 =
      Payload.failure ("t1") ("") ∧
    String.length ("") = 0 := by
  refine ⟨?_, rfl⟩
  decide

/-- C9 counterexample: a concrete structural-fallback run terminates with
a success payload while no publish call appears in its collaborator trace,
against the claim that the fallback branch publishes its result. -/
theorem fallback_skips_publish_counterexample :
    (process_match_task ("t2") 3 uEx cFb).1 =
      Payload.success (MatchResult.mk ("t2") ("u1") MatchTier.FALLBACK
        [fallbackMatch recA, fallbackMatch recB] 3) ∧
    Effect.publishCall ("u1") ∉ (process_match_task ("t2") 3 uEx cFb).2 := by
  refine ⟨?_, ?_⟩ <;> decide

def cmA1 : CommunityMatch := ⟨("c1"), ("n1"), ("A"), mkRat 91 100, 10, 1⟩

def cmA2 : CommunityMatch := ⟨("c2"), ("n2"), ("A"), mkRat 80 100, 10, 1⟩

def cmA3 : CommunityMatch := ⟨("c3"), ("n3"), ("A"), mkRat 78 100, 10, 1⟩

def cmA4 : CommunityMatch := ⟨("c4"), ("n4"), ("A"), mkRat 70 100, 10, 1⟩

def cmB4 : CommunityMatch := ⟨("c4"), ("n4"), ("B"), mkRat 70 100, 10, 1⟩

def cmB2 : CommunityMatch := ⟨("c2"), ("n2"), ("B"), mkRat 80 100, 10, 1⟩

def cmC5 : CommunityMatch := ⟨("c5"), ("n5"), ("C"), mkRat 60 100, 10, 1⟩

def cmD6 : CommunityMatch := ⟨("c6"), ("n6"), ("D"), mkRat 50 100, 10, 1⟩

/-- C2 witness: the no-op cases and the single swap of the diversity pass
at concrete six-, four- and three-entry lists. -/
theorem diversity_pass_spec_witness :
    apply_diversity [cmA1, cmA2, cmA3] = [cmA1, cmA2, cmA3] ∧
    apply_diversity [cmA1, cmB2, cmA3, cmB4] = [cmA1, cmB2, cmA3, cmB4] ∧
    apply_diversity [cmA1, cmA2, cmA3, cmA4] = [cmA1, cmA2, cmA3, cmA4] ∧
    apply_diversity [cmA1, cmA2, cmA3, cmB4, cmC5, cmD6] =
      [cmA1, cmA2, cmB4, cmA3, cmC5, cmD6] ∧
    countDistinct
      (((apply_diversity [cmA1, cmA2, cmA3, cmB4, cmC5, cmD6]).take 3).map
        (fun m => m.category)) ≠ 1 := by
  have h4 := (diversity_pass_spec [cmA1, cmA2, cmA3, cmB4, cmC5, cmD6]).2.2.2
    cmA1 cmA2 cmA3 [cmB4, cmC5, cmD6] 0 cmB4 rfl rfl rfl rfl (by decide)
    (fun i hi => absurd hi (Nat.not_lt_zero i))
  exact ⟨(diversity_pass_spec _).1 (by decide),
    (diversity_pass_spec _).2.1 (by decide),
    (diversity_pass_spec _).2.2.1 cmA1 cmA2 cmA3 [cmA4] rfl (by decide),
    h4.1, h4.2⟩

def resEx : MatchResult :=
  MatchResult.mk ("t1") ("u1") MatchTier.SOULMATE
    [CommunityMatch.mk ("c1") ("Jazz Club") ("music") (mkRat 9 10) 120 5] 7

def trEx : List Effect :=
  [Effect.sanitizeCall, Effect.embedCall, Effect.cacheVector ("u1"),
   Effect.filterByLocation, Effect.rankerQuery 10, Effect.publishCall ("u1")]

/-- C3 witness: the size invariants instantiated on a concrete healthy
vector-branch run. -/
theorem final_size_and_topk_witness :
    resEx.«matches».length ≤ 5 ∧ [vmA].length ≤ 10 ∧ (10 : Nat) = 10 := by
  refine ⟨final_size_and_topk.1 ("t1") 7 uEx cVec resEx trEx (by decide),
    final_size_and_topk.2.1 (Except.ok [vmA]) [vmA] rfl,
    final_size_and_topk.2.2 ("t1") 7 uEx cVec 10 (by decide)⟩

/-- C5 witness: the fallback branch on a concrete empty-filter run. -/
theorem structural_fallback_witness :
    ((process_match_task ("t2") 3 uEx cFb).1 = Payload.success
        (MatchResult.mk ("t2") ("u1") MatchTier.FALLBACK
          ((get_popular_communities [recA, recB]).map fallbackMatch) 3) ∧
      ∀ m ∈ (get_popular_communities [recA, recB]).map fallbackMatch,
        m.match_score = 0) ∧
    Effect.rankerQuery 10 ∉ (process_match_task ("t2") 3 uEx cFb).2 ∧
    process_match_task ("t2") 3 uEx cFb =
      process_match_task ("t2") 3 uEx cFb2 := by
  refine ⟨structural_fallback_spec.1 ("t2") 3 uEx cFb [1] [recA, recB]
      rfl rfl rfl rfl,
    structural_fallback_spec.2.1 ("t2") 3 uEx cFb 10 rfl,
    structural_fallback_spec.2.2 ("t2") 3 uEx cFb cFb2 [1] [2]
      rfl rfl rfl rfl rfl rfl rfl⟩

/-- C6 witness: a concrete zero-overlap run fails with the merge message
while a concrete empty-candidate run succeeds with tier FALLBACK. -/
theorem empty_merge_witness :
    (process_match_task ("t3") 2 uEx cNoOverlap).1 =
      Payload.failure ("t3") mergeFailureMsg ∧
    (∃ r, (process_match_task ("t2") 3 uEx cFb).1 = Payload.success r ∧
      r.tier = MatchTier.FALLBACK) := by
  refine ⟨empty_merge_spec.1 ("t3") 2 uEx cNoOverlap [1] [recA] [vmZ]
      rfl rfl rfl (by decide) rfl (by decide),
    empty_merge_spec.2.2 ("t2") 3 uEx cFb [1] [recA, recB] rfl rfl rfl rfl⟩

/-- C9 witness: the amended claim instantiated on a concrete fallback run
and a concrete vector-branch run. -/
theorem fallback_no_publish_witness :
    ((∃ r, (process_match_task ("t2") 3 uEx cFb).1 = Payload.success r) ∧
      Effect.publishCall ("u1") ∉ (process_match_task ("t2") 3 uEx cFb).2) ∧
    Effect.publishCall ("u1") ∈ (process_match_task ("t1") 7 uEx cVec).2 := by
  refine ⟨fallback_no_publish_spec.1 ("t2") 3 uEx cFb [1] [recA, recB]
      rfl rfl rfl rfl,
    fallback_no_publish_spec.2 ("t1") 7 uEx cVec [1] [recA] [vmA]
      rfl rfl rfl (by decide) rfl (by decide) rfl⟩

def mEx : CommunityMatch :=
  CommunityMatch.mk ("c1") ("Jazz Club") ("music") (mkRat 9 10) 120 5

/-- C10 witness: the merge characterization at a concrete ranker output
with one id outside the candidate map. -/
theorem merge_witness :
    ((mergeResults [vmA, vmZ] [recA]).map
        (fun m => (m.community_id, m.match_score)) =
      (([vmA, vmZ].filter
          (fun v => (lookupCommunity [recA] v.community_id).isSome)).map
        (fun v => (v.community_id, v.match_score)))) ∧
    (∃ cr, lookupCommunity [recA] mEx.community_id = some cr ∧
      mEx.community_name = cr.community_name ∧
      mEx.category = cr.category ∧
      mEx.member_count = cr.member_count ∧
      mEx.recent_activity = cr.recent_activity) := by
  exact ⟨(merge_is_faithful_filter [vmA, vmZ] [recA]).1,
    (merge_is_faithful_filter [vmA, vmZ] [recA]).2.2 mEx (by decide)⟩
